import Mathlib

/-!
Verification of the APSS-Prog-Adapter LoRa radio driver core: a shallow
embedding of the RFM95 register access layer, the radio parameter value
types with their raw-byte conversions, the layered error taxonomy, and the
`Radio` wrapper policy layer, with theorems settling the specification
claims about them.
-/

namespace Rfm95

/-- Result type mirroring Rust `Result<A, E>`. -/
inductive RResult (E A : Type) where
  | ok (a : A)
  | err (e : E)
deriving DecidableEq

/-- Error type for wrapper type conversions (`ConversionError` in
`lora/types.rs`): the only variant is `InvalidOrUnsupportedValue`. -/
inductive ConversionError where
  | invalidOrUnsupportedValue
deriving DecidableEq

/-- A LoRa spreading factor (`SpreadingFactor` in `lora/types.rs`): SF7-SF12. -/
inductive SpreadingFactor where
  | s7
  | s8
  | s9
  | s10
  | s11
  | s12
deriving DecidableEq, Fintype

/-- The `repr(u8)` discriminant of a `SpreadingFactor` (`S7 = 7`, ..., `S12 = 12`). -/
def SpreadingFactor.toU8 : SpreadingFactor → Nat
  | .s7 => 7
  | .s8 => 8
  | .s9 => 9
  | .s10 => 10
  | .s11 => 11
  | .s12 => 12

/-- `TryFrom<u8> for SpreadingFactor` from `lora/types.rs`: a guard chain
comparing the input against each discriminant in declaration order. -/
def SpreadingFactor.tryFrom (value : Nat) : RResult ConversionError SpreadingFactor :=
  if value = SpreadingFactor.s7.toU8 then .ok .s7
  else if value = SpreadingFactor.s8.toU8 then .ok .s8
  else if value = SpreadingFactor.s9.toU8 then .ok .s9
  else if value = SpreadingFactor.s10.toU8 then .ok .s10
  else if value = SpreadingFactor.s11.toU8 then .ok .s11
  else if value = SpreadingFactor.s12.toU8 then .ok .s12
  else .err .invalidOrUnsupportedValue

/-- A LoRa bandwidth (`Bandwidth` in `lora/types.rs`): ten discrete values. -/
inductive Bandwidth where
  | b500
  | b250
  | b125
  | b62_5
  | b41_7
  | b31_25
  | b20_8
  | b15_6
  | b10_4
  | b7_8
deriving DecidableEq, Fintype

/-- The `repr(u8)` discriminant of a `Bandwidth` (`B500 = 0b1001`, ..., `B7_8 = 0b0000`). -/
def Bandwidth.toU8 : Bandwidth → Nat
  | .b500 => 0b1001
  | .b250 => 0b1000
  | .b125 => 0b0111
  | .b62_5 => 0b0110
  | .b41_7 => 0b0101
  | .b31_25 => 0b0100
  | .b20_8 => 0b0011
  | .b15_6 => 0b0010
  | .b10_4 => 0b0001
  | .b7_8 => 0b0000

/-- `TryFrom<u8> for Bandwidth` from `lora/types.rs`. -/
def Bandwidth.tryFrom (value : Nat) : RResult ConversionError Bandwidth :=
  if value = Bandwidth.b500.toU8 then .ok .b500
  else if value = Bandwidth.b250.toU8 then .ok .b250
  else if value = Bandwidth.b125.toU8 then .ok .b125
  else if value = Bandwidth.b62_5.toU8 then .ok .b62_5
  else if value = Bandwidth.b41_7.toU8 then .ok .b41_7
  else if value = Bandwidth.b31_25.toU8 then .ok .b31_25
  else if value = Bandwidth.b20_8.toU8 then .ok .b20_8
  else if value = Bandwidth.b15_6.toU8 then .ok .b15_6
  else if value = Bandwidth.b10_4.toU8 then .ok .b10_4
  else if value = Bandwidth.b7_8.toU8 then .ok .b7_8
  else .err .invalidOrUnsupportedValue

/-- A coding rate (`CodingRate` in `lora/types.rs`): 4/5 through 4/8. -/
inductive CodingRate where
  | c4_5
  | c4_6
  | c4_7
  | c4_8
deriving DecidableEq, Fintype

/-- The `repr(u8)` discriminant of a `CodingRate` (`C4_5 = 1`, ..., `C4_8 = 4`). -/
def CodingRate.toU8 : CodingRate → Nat
  | .c4_5 => 0b001
  | .c4_6 => 0b010
  | .c4_7 => 0b011
  | .c4_8 => 0b100

/-- `TryFrom<u8> for CodingRate` from `lora/types.rs`. -/
def CodingRate.tryFrom (value : Nat) : RResult ConversionError CodingRate :=
  if value = CodingRate.c4_5.toU8 then .ok .c4_5
  else if value = CodingRate.c4_6.toU8 then .ok .c4_6
  else if value = CodingRate.c4_7.toU8 then .ok .c4_7
  else if value = CodingRate.c4_8.toU8 then .ok .c4_8
  else .err .invalidOrUnsupportedValue

/-- The IQ polarity (`Polarity` in `lora/types.rs`): Normal = 0, Inverted = 1. -/
inductive Polarity where
  | normal
  | inverted
deriving DecidableEq, Fintype

/-- The `repr(u8)` discriminant of a `Polarity`. -/
def Polarity.toU8 : Polarity → Nat
  | .normal => 0
  | .inverted => 1

/-- `TryFrom<u8> for Polarity` from `lora/types.rs`. -/
def Polarity.tryFrom (value : Nat) : RResult ConversionError Polarity :=
  if value = Polarity.normal.toU8 then .ok .normal
  else if value = Polarity.inverted.toU8 then .ok .inverted
  else .err .invalidOrUnsupportedValue

/-- The LoRa header mode (`HeaderMode` in `lora/types.rs`): Explicit = 0, Implicit = 1. -/
inductive HeaderMode where
  | explicit
  | implicit
deriving DecidableEq, Fintype

/-- The `repr(u8)` discriminant of a `HeaderMode`. -/
def HeaderMode.toU8 : HeaderMode → Nat
  | .explicit => 0
  | .implicit => 1

/-- `TryFrom<u8> for HeaderMode` from `lora/types.rs`. -/
def HeaderMode.tryFrom (value : Nat) : RResult ConversionError HeaderMode :=
  if value = HeaderMode.explicit.toU8 then .ok .explicit
  else if value = HeaderMode.implicit.toU8 then .ok .implicit
  else .err .invalidOrUnsupportedValue

/-- The CRC configuration (`CrcMode` in `lora/types.rs`): Disabled = 0, Enabled = 1. -/
inductive CrcMode where
  | disabled
  | enabled
deriving DecidableEq, Fintype

/-- The `repr(u8)` discriminant of a `CrcMode`. -/
def CrcMode.toU8 : CrcMode → Nat
  | .disabled => 0
  | .enabled => 1

/-- `TryFrom<u8> for CrcMode` from `lora/types.rs`. -/
def CrcMode.tryFrom (value : Nat) : RResult ConversionError CrcMode :=
  if value = CrcMode.disabled.toU8 then .ok .disabled
  else if value = CrcMode.enabled.toU8 then .ok .enabled
  else .err .invalidOrUnsupportedValue

/-- A register descriptor: the `Register` trait of `rfm95/registers.rs`
exposes an address, a bit mask and a bit offset per register. -/
structure Register where
  address : Nat
  mask : Nat
  offset : Nat
deriving DecidableEq

/-- One two-byte SPI transaction as issued by `Rfm95Connection::register`:
the command byte and the payload byte. -/
structure Transaction where
  byte0 : Nat
  byte1 : Nat
deriving DecidableEq

/-- The read operation bit pattern (`Rfm95Connection::RO = 0x00`). -/
def RO : Nat := 0x00

/-- The write operation bit pattern (`Rfm95Connection::RW = 0x80`). -/
def RW : Nat := 0x80

/-- The SPI device on the other end of the bus, modelled as a response
oracle: `none` means the transfer fails (surfaced as an `IoError`). -/
def Device : Type := Transaction → Option Nat

/-- `Rfm95Connection::register` from `rfm95/connection.rs`: masks the
address to 7 bits, ORs in the operation bit, transfers the two-byte
command in place, and returns the byte clocked back by the device. The
second component is the list of bus transactions issued. -/
def registerOp (dev : Device) (operation address payload : Nat) :
    Option Nat × List Transaction :=
  let address := address &&& 0x7F
  let t : Transaction := ⟨operation ||| address, payload⟩
  (dev t, [t])

/-- `Rfm95Connection::read` from `rfm95/connection.rs`: a read transaction
with dummy payload `0x00`, then mask and right-shift the returned byte. -/
def readOp (dev : Device) (r : Register) : Option Nat × List Transaction :=
  match registerOp dev RO r.address 0x00 with
  | (some registerValue, ts) => (some ((registerValue &&& r.mask) >>> r.offset), ts)
  | (none, ts) => (none, ts)

/-- `Rfm95Connection::write` from `rfm95/connection.rs`: a single write
transaction when the mask covers the full byte, otherwise
read-modify-write. The shifted value is truncated to 8 bits, as Rust `u8`
shift does. -/
def writeOp (dev : Device) (r : Register) (value : Nat) :
    Option Unit × List Transaction :=
  if r.mask = 0xFF then
    match registerOp dev RW r.address value with
    | (some _, ts) => (some (), ts)
    | (none, ts) => (none, ts)
  else
    match registerOp dev RO r.address 0x00 with
    | (some oldValue, ts1) =>
      let newValue := (oldValue &&& (0xFF ^^^ r.mask)) ||| ((value <<< r.offset) % 256)
      match registerOp dev RW r.address newValue with
      | (some _, ts2) => (some (), ts1 ++ ts2)
      | (none, ts2) => (none, ts1 ++ ts2)
    | (none, ts1) => (none, ts1)

/-- An I/O error (`IoError` in `error.rs`, with the `backtrace` fields). -/
structure IoError where
  file : String
  line : Nat
  description : String
deriving DecidableEq

/-- A timeout error (`TimeoutError` in `error.rs`). -/
structure TimeoutError where
  file : String
  line : Nat
  description : String
deriving DecidableEq

/-- A CRC-validation or format error (`InvalidMessageError` in `error.rs`). -/
structure InvalidMessageError where
  file : String
  line : Nat
  description : String
deriving DecidableEq

/-- An invalid-argument error (`InvalidArgumentError` in `error.rs`). -/
structure InvalidArgumentError where
  file : String
  line : Nat
  description : String
deriving DecidableEq

/-- A TX-start error (`TxStartError` in `error.rs`). -/
inductive TxStartError where
  | ioError (e : IoError)
  | invalidArgumentError (e : InvalidArgumentError)
deriving DecidableEq

/-- An RX-start error (`RxStartError` in `error.rs`). -/
inductive RxStartError where
  | ioError (e : IoError)
  | invalidArgumentError (e : InvalidArgumentError)
deriving DecidableEq

/-- An RX-completion error (`RxCompleteError` in `error.rs`): exactly the
three constituents IoError, TimeoutError, InvalidMessageError. -/
inductive RxCompleteError where
  | ioError (e : IoError)
  | timeoutError (e : TimeoutError)
  | invalidMessageError (e : InvalidMessageError)
deriving DecidableEq

/-- `impl From<IoError> for RxCompleteError` in `error.rs`. -/
def RxCompleteError.fromIoError (e : IoError) : RxCompleteError :=
  .ioError e

/-- `impl From<TimeoutError> for RxCompleteError` in `error.rs`. -/
def RxCompleteError.fromTimeoutError (e : TimeoutError) : RxCompleteError :=
  .timeoutError e

/-- `impl From<InvalidMessageError> for RxCompleteError` in `error.rs`. -/
def RxCompleteError.fromInvalidMessageError (e : InvalidMessageError) : RxCompleteError :=
  .invalidMessageError e

/-- Recover the IoError constituent of an `RxCompleteError`, when present. -/
def RxCompleteError.getIoError : RxCompleteError → Option IoError
  | .ioError e => some e
  | _ => none

/-- Recover the TimeoutError constituent of an `RxCompleteError`, when present. -/
def RxCompleteError.getTimeoutError : RxCompleteError → Option TimeoutError
  | .timeoutError e => some e
  | _ => none

/-- Recover the InvalidMessageError constituent of an `RxCompleteError`, when present. -/
def RxCompleteError.getInvalidMessageError : RxCompleteError → Option InvalidMessageError
  | .invalidMessageError e => some e
  | _ => none

/-- Result type mirroring the `nb::Result` used by the `Radio` wrapper in
`src/lora.rs`: `Ok`, `Err(WouldBlock)` or `Err(Other(e))`. -/
inductive NbResult (A E : Type) where
  | ok (a : A)
  | wouldBlock
  | other (e : E)
deriving DecidableEq

/-- `Radio::recieve_is_complete` from `src/lora.rs`, as a function of the
buffer and of the result the driver's `complete_rx` poll produced:
`Ok(Some(n))` becomes `Ok(&buf[0..n])`, `Ok(None)` becomes `WouldBlock`,
and any error is passed through as `Other(e)`. -/
def recieveIsComplete (buf : List Nat)
    (pollResult : RResult RxCompleteError (Option Nat)) :
    NbResult (List Nat) RxCompleteError :=
  match pollResult with
  | .ok (some n) => .ok (buf.take n)
  | .ok none => .wouldBlock
  | .err e => .other e

/-- What the `range_test_rx` loop body in `src/lora.rs` does with each
receive poll result: restart listening, ignore, or report the message and
then restart listening. -/
inductive RangeTestAction where
  | restartListen
  | ignore
  | reportAndRestartListen (msg : List Nat)
deriving DecidableEq

/-- The match in the `range_test_rx` loop of `src/lora.rs`: on
`Err(Other(TimeoutError))` it calls `recieve_start(None)` again; on any
other error it does nothing; on `Ok(msg)` it prints the message and calls
`recieve_start(None)`. -/
def rangeTestRxReact (r : NbResult (List Nat) RxCompleteError) : RangeTestAction :=
  match r with
  | .other (.timeoutError _) => .restartListen
  | .other _ => .ignore
  | .wouldBlock => .ignore
  | .ok msg => .reportAndRestartListen msg

/-- Modelled from the spec: the bandwidth of each `Bandwidth` variant in
Hertz (`B500` is 500 kHz, ..., `B7_8` is 7.8 kHz), used by the symbol
duration formula Tsym = 2^SF / BW. The driver code holding this table
(`Rfm95Driver`) is not under `src/`. -/
def Bandwidth.hz : Bandwidth → Nat
  | .b500 => 500000
  | .b250 => 250000
  | .b125 => 125000
  | .b62_5 => 62500
  | .b41_7 => 41700
  | .b31_25 => 31250
  | .b20_8 => 20800
  | .b15_6 => 15600
  | .b10_4 => 10400
  | .b7_8 => 7800

/-- Modelled from the spec: the numerator of the symbol duration in
nanoseconds, `2^SF * 10^9`; Tsym in nanoseconds is this divided by the
bandwidth in Hz. -/
def symbolDenom (sf : SpreadingFactor) : Nat :=
  2 ^ sf.toU8 * 1000000000

/-- Modelled from the spec: `start_rx` converts the timeout (here in
nanoseconds) to a symbol count by dividing by Tsym = 2^SF / BW and
rounding to the nearest integer. The driver code (`Rfm95Driver::start_rx`)
is not under `src/`. -/
def rxSymbolCount (t : Nat) (sf : SpreadingFactor) (bw : Bandwidth) : Nat :=
  (t * bw.hz + symbolDenom sf / 2) / symbolDenom sf

/-- Modelled from the spec: `rx_timeout_max()` returns the largest
representable timeout, `1023 * Tsym`, at the active spreading factor and
bandwidth, here in nanoseconds. The driver code is not under `src/`. -/
def rxTimeoutMax (sf : SpreadingFactor) (bw : Bandwidth) : Nat :=
  1023 * symbolDenom sf / bw.hz

/-- Modelled from the spec: `start_rx(timeout)` fails with the
`TimeoutTooLarge` invalid-argument error when the rounded symbol count
exceeds 1023 or overflows the intermediate signed 32-bit count; otherwise
it performs the register writes, which can fail only with an I/O error
(modelled by the `io` oracle). The driver code is not under `src/`. -/
def startRx (t : Nat) (sf : SpreadingFactor) (bw : Bandwidth)
    (io : Option IoError) : RResult RxStartError Unit :=
  let c := rxSymbolCount t sf bw
  if 1023 < c ∨ 2 ^ 31 ≤ c then
    .err (.invalidArgumentError ⟨"driver", 0, "TimeoutTooLarge"⟩)
  else
    match io with
    | some e => .err (.ioError e)
    | none => .ok ()

/-- The outcome of a Rust function that can `unwrap`: either a normal
return or a panic carrying the unwrapped error. -/
inductive PanicOr (A : Type) where
  | panicked (cause : RxStartError)
  | returned (a : A)
deriving DecidableEq

/-- `Radio::recieve_start` from `src/lora.rs`: when no timeout is given it
uses `rx_timeout_max()`, then calls `start_rx` and unwraps, so any
`start_rx` failure panics instead of being returned. -/
def recieveStart (timeout : Option Nat) (sf : SpreadingFactor) (bw : Bandwidth)
    (io : Option IoError) : PanicOr Unit :=
  let t := match timeout with
    | some t => t
    | none => rxTimeoutMax sf bw
  match startRx t sf bw io with
  | .ok _ => .returned ()
  | .err e => .panicked e

/-- Modelled from the spec: `start_tx(data)` fails with an
invalid-argument error, before touching the bus, when `data` is empty or
longer than the FIFO capacity; otherwise it writes the payload length
register, the payload bytes, and the transmit-mode command (so
`2 + data.length` transactions), failing only on an I/O error (modelled
as failing on the first transaction). The driver code
(`Rfm95Driver::start_tx`) is not under `src/`. The second component is
the number of bus transactions performed. -/
def startTx (cap : Nat) (data : List Nat) (io : Option IoError) :
    RResult TxStartError Unit × Nat :=
  if data.length = 0 ∨ cap < data.length then
    (.err (.invalidArgumentError ⟨"driver", 0, "InvalidBufferSize"⟩), 0)
  else
    match io with
    | some e => (.err (.ioError e), 1)
    | none => (.ok (), 2 + data.length)

set_option maxRecDepth 4096

/-- Unfolding equation for `startRx`, shared by the receive-path theorems. -/
theorem startRx_def (t : Nat) (sf : SpreadingFactor) (bw : Bandwidth)
    (io : Option IoError) :
    startRx t sf bw io =
      if 1023 < rxSymbolCount t sf bw ∨ 2 ^ 31 ≤ rxSymbolCount t sf bw then
        .err (.invalidArgumentError ⟨"driver", 0, "TimeoutTooLarge"⟩)
      else
        match io with
        | some e => .err (.ioError e)
        | none => .ok () := rfl

/-- C1: for every radio parameter value type (SpreadingFactor, Bandwidth,
CodingRate, Polarity, HeaderMode, CrcMode) and every legally constructed
value `v`, `try_from (v as u8) = Ok v`; and for every raw byte in 0..=255
that is not one of the type's defined raw codes, the conversion fails with
`ConversionError::InvalidOrUnsupportedValue`. -/
theorem c1_conversion_roundtrip :
    (∀ v : SpreadingFactor, SpreadingFactor.tryFrom v.toU8 = .ok v) ∧
    (∀ b : Fin 256, (∀ v : SpreadingFactor, v.toU8 ≠ b.val) →
      SpreadingFactor.tryFrom b.val = .err .invalidOrUnsupportedValue) ∧
    (∀ v : Bandwidth, Bandwidth.tryFrom v.toU8 = .ok v) ∧
    (∀ b : Fin 256, (∀ v : Bandwidth, v.toU8 ≠ b.val) →
      Bandwidth.tryFrom b.val = .err .invalidOrUnsupportedValue) ∧
    (∀ v : CodingRate, CodingRate.tryFrom v.toU8 = .ok v) ∧
    (∀ b : Fin 256, (∀ v : CodingRate, v.toU8 ≠ b.val) →
      CodingRate.tryFrom b.val = .err .invalidOrUnsupportedValue) ∧
    (∀ v : Polarity, Polarity.tryFrom v.toU8 = .ok v) ∧
    (∀ b : Fin 256, (∀ v : Polarity, v.toU8 ≠ b.val) →
      Polarity.tryFrom b.val = .err .invalidOrUnsupportedValue) ∧
    (∀ v : HeaderMode, HeaderMode.tryFrom v.toU8 = .ok v) ∧
    (∀ b : Fin 256, (∀ v : HeaderMode, v.toU8 ≠ b.val) →
      HeaderMode.tryFrom b.val = .err .invalidOrUnsupportedValue) ∧
    (∀ v : CrcMode, CrcMode.tryFrom v.toU8 = .ok v) ∧
    (∀ b : Fin 256, (∀ v : CrcMode, v.toU8 ≠ b.val) →
      CrcMode.tryFrom b.val = .err .invalidOrUnsupportedValue) := by
  decide

/-- Witness for C1 at concrete inputs: byte 0 is not a spreading factor
code and is rejected. -/
theorem c1_conversion_roundtrip_witness :
    SpreadingFactor.tryFrom 0 = .err .invalidOrUnsupportedValue :=
  c1_conversion_roundtrip.2.1 ⟨0, by decide⟩ (by decide)

/-- C4: `Rfm95Connection::read` issues exactly one two-byte transaction
whose first byte is `(0 << 7) | (address & 0x7F)` and whose second byte is
the dummy payload `0x00`, and returns the device's response byte masked by
the descriptor's mask and right-shifted by the descriptor's offset. -/
theorem c4_read_transaction (r : Register) (dev : Device) (resp : Nat)
    (hdev : dev ⟨RO ||| (r.address &&& 0x7F), 0x00⟩ = some resp) :
    (readOp dev r).2 = [⟨(0 <<< 7) ||| (r.address &&& 0x7F), 0x00⟩] ∧
    (readOp dev r).1 = some ((resp &&& r.mask) >>> r.offset) := by
  have h0 : (0 <<< 7 : Nat) = RO := by decide
  rw [h0]
  simp [readOp, registerOp, hdev]

/-- Witness for C4 at a concrete register and device. -/
theorem c4_read_transaction_witness :
    (readOp (fun _ => some 0xAB) ⟨0x42, 0xFF, 0⟩).2 =
      [⟨(0 <<< 7) ||| (0x42 &&& 0x7F), 0x00⟩] ∧
    (readOp (fun _ => some 0xAB) ⟨0x42, 0xFF, 0⟩).1 =
      some ((0xAB &&& 0xFF) >>> 0) :=
  c4_read_transaction ⟨0x42, 0xFF, 0⟩ (fun _ => some 0xAB) 0xAB rfl

/-- C10: for every register descriptor satisfying the descriptor invariant
(contiguous mask bits, offset equal to the position of the mask's lowest
set bit, here rendered as mask = (2^w - 1) * 2^offset), a successful
`Rfm95Connection::read` returns a byte that is at most `mask >> offset`,
regardless of the byte the device put on the bus. -/
theorem c10_read_within_field (r : Register) (dev : Device) (w result : Nat)
    (hmask : r.mask = (2 ^ w - 1) * 2 ^ r.offset)
    (hread : (readOp dev r).1 = some result) :
    result ≤ r.mask >>> r.offset := by
  unfold readOp registerOp at hread
  cases hdev : dev ⟨RO ||| (r.address &&& 0x7F), 0x00⟩ with
  | none => simp [hdev] at hread
  | some resp =>
    simp [hdev] at hread
    rw [← hread, Nat.shiftRight_eq_div_pow, Nat.shiftRight_eq_div_pow]
    exact Nat.div_le_div_right Nat.and_le_right

/-- Witness for C10 at a concrete register, width and device. -/
theorem c10_read_within_field_witness : (127 : Nat) ≤ (0xFF : Nat) >>> 0 :=
  c10_read_within_field ⟨0, 0xFF, 0⟩ (fun _ => some 0x7F) 8 127 (by decide)
    (by decide)

/-- C8: the RX-completion error union contains exactly the leaf kinds
IoError, TimeoutError and InvalidMessageError, and each leaf kind has a
total widening conversion into the union that is lossless: the leaf is
recoverable, and distinct leaf values map to distinct union values. -/
theorem c8_rx_complete_error_union :
    (∀ u : RxCompleteError,
      (∃ e, u = RxCompleteError.fromIoError e) ∨
      (∃ e, u = RxCompleteError.fromTimeoutError e) ∨
      (∃ e, u = RxCompleteError.fromInvalidMessageError e)) ∧
    (∀ e, (RxCompleteError.fromIoError e).getIoError = some e) ∧
    (∀ e, (RxCompleteError.fromTimeoutError e).getTimeoutError = some e) ∧
    (∀ e, (RxCompleteError.fromInvalidMessageError e).getInvalidMessageError = some e) ∧
    (∀ e ef, RxCompleteError.fromIoError e = RxCompleteError.fromIoError ef → e = ef) ∧
    (∀ e ef, RxCompleteError.fromTimeoutError e = RxCompleteError.fromTimeoutError ef →
      e = ef) ∧
    (∀ e ef, RxCompleteError.fromInvalidMessageError e =
      RxCompleteError.fromInvalidMessageError ef → e = ef) := by
  refine ⟨?_, fun e => rfl, fun e => rfl, fun e => rfl, ?_, ?_, ?_⟩
  · intro u
    cases u with
    | ioError e => exact Or.inl ⟨e, rfl⟩
    | timeoutError e => exact Or.inr (Or.inl ⟨e, rfl⟩)
    | invalidMessageError e => exact Or.inr (Or.inr ⟨e, rfl⟩)
  · intro e ef h
    have hh := congrArg RxCompleteError.getIoError h
    simpa [RxCompleteError.fromIoError, RxCompleteError.getIoError] using hh
  · intro e ef h
    have hh := congrArg RxCompleteError.getTimeoutError h
    simpa [RxCompleteError.fromTimeoutError, RxCompleteError.getTimeoutError] using hh
  · intro e ef h
    have hh := congrArg RxCompleteError.getInvalidMessageError h
    simpa [RxCompleteError.fromInvalidMessageError,
      RxCompleteError.getInvalidMessageError] using hh

/-- Witness for C8 at a concrete IoError value, exercising the
injectivity conjunct. -/
theorem c8_rx_complete_error_union_witness :
    (⟨"f", 1, "d"⟩ : IoError) = ⟨"f", 1, "d"⟩ :=
  c8_rx_complete_error_union.2.2.2.2.1 ⟨"f", 1, "d"⟩ ⟨"f", 1, "d"⟩ rfl

/-- For an 8-bit mask, the complement-within-a-byte of the mask and the
mask itself have no common bits. -/
theorem xor_mask_and_self (m : Nat) (hm : m < 256) : (0xFF ^^^ m) &&& m = 0 := by
  apply Nat.eq_of_testBit_eq
  intro i
  rw [Nat.testBit_and, Nat.testBit_xor, Nat.zero_testBit]
  by_cases hi : i < 8
  · rw [show (0xFF : Nat) = 2 ^ 8 - 1 by norm_num, Nat.testBit_two_pow_sub_one]
    simp [hi]
  · have hbit : m.testBit i = false := by
      apply Nat.testBit_lt_two_pow
      calc m < 256 := hm
        _ = 2 ^ 8 := by norm_num
        _ ≤ 2 ^ i := Nat.pow_le_pow_right (by norm_num) (Nat.le_of_not_lt hi)
    simp [hbit]

/-- C2 is false as the claim states it: with a partial mask, a value whose
shifted bits spill outside the mask corrupts the out-of-mask bits of the
written byte. Concretely, with mask `0x0F`, offset 0, register value 0 on
the device and value `0xF0`, the byte written back is `0xF0`, whose
out-of-mask bits differ from those of the byte just read. -/
theorem c2_counterexample :
    ¬ (∀ (r : Register) (dev : Device) (value : Nat),
        r.mask ≠ 0xFF → ∀ old, dev ⟨RO ||| (r.address &&& 0x7F), 0x00⟩ = some old →
          ∀ t1 t2, (writeOp dev r value).2 = [t1, t2] →
            t2.byte1 &&& (0xFF ^^^ r.mask) = old &&& (0xFF ^^^ r.mask)) := by
  intro h
  have h2 := h ⟨0, 0x0F, 0⟩ (fun _ => some 0) 0xF0 (by decide) 0 rfl
    ⟨0, 0x00⟩ ⟨0x80, 0xF0⟩ (by decide)
  exact absurd h2 (by decide)

/-- C2 (amended): `Rfm95Connection::write` with a full-byte mask issues
exactly one transaction writing the value directly; with a partial mask it
issues exactly two transactions (a read then a write) regardless of the
value. The written byte's in-mask bits carry the new value shifted into
position (for the 8-bit masks of the descriptor model), and — provided the
shifted value fits inside the mask — its out-of-mask bits equal those of
the register value just read. -/
theorem c2_write_transactions (r : Register) (dev : Device) (value : Nat) :
    (r.mask = 0xFF →
      (writeOp dev r value).2 = [⟨RW ||| (r.address &&& 0x7F), value⟩]) ∧
    (r.mask ≠ 0xFF → ∀ old, dev ⟨RO ||| (r.address &&& 0x7F), 0x00⟩ = some old →
      (writeOp dev r value).2 =
        [⟨RO ||| (r.address &&& 0x7F), 0x00⟩,
         ⟨RW ||| (r.address &&& 0x7F),
          (old &&& (0xFF ^^^ r.mask)) ||| ((value <<< r.offset) % 256)⟩] ∧
      (((value <<< r.offset) % 256) &&& (0xFF ^^^ r.mask) = 0 →
        ((old &&& (0xFF ^^^ r.mask)) ||| ((value <<< r.offset) % 256)) &&&
            (0xFF ^^^ r.mask) = old &&& (0xFF ^^^ r.mask)) ∧
      (r.mask < 256 →
        ((old &&& (0xFF ^^^ r.mask)) ||| ((value <<< r.offset) % 256)) &&& r.mask =
          ((value <<< r.offset) % 256) &&& r.mask)) := by
  constructor
  · intro hfull
    cases hdev : dev ⟨RW ||| (r.address &&& 0x7F), value⟩ <;>
      simp [writeOp, registerOp, hfull, hdev]
  · intro hpartial old hdev
    refine ⟨?_, ?_, ?_⟩
    · cases hdev2 : dev ⟨RW ||| (r.address &&& 0x7F),
          (old &&& (0xFF ^^^ r.mask)) ||| ((value <<< r.offset) % 256)⟩ <;>
        simp [writeOp, registerOp, hpartial, hdev, hdev2]
    · intro hfit
      rw [Nat.and_distrib_right, Nat.and_assoc, Nat.and_self, hfit, Nat.or_zero]
    · intro hm
      rw [Nat.and_distrib_right, Nat.and_assoc, xor_mask_and_self r.mask hm,
        Nat.and_zero, Nat.zero_or]

/-- Witness for C2 (amended) at a concrete register, device and value:
mask `0x70`, offset 4, value 5, register value `0xAB` on the device. -/
theorem c2_write_transactions_witness :
    (writeOp (fun _ => some 0xAB) ⟨1, 0x70, 4⟩ 5).2 =
      [⟨0 ||| (1 &&& 0x7F), 0x00⟩,
       ⟨0x80 ||| (1 &&& 0x7F), (0xAB &&& (0xFF ^^^ 0x70)) ||| ((5 <<< 4) % 256)⟩] ∧
    ((0xAB &&& (0xFF ^^^ 0x70)) ||| ((5 <<< 4) % 256)) &&& (0xFF ^^^ 0x70) =
      0xAB &&& (0xFF ^^^ 0x70) ∧
    ((0xAB &&& (0xFF ^^^ 0x70)) ||| ((5 <<< 4) % 256)) &&& 0x70 =
      ((5 <<< 4) % 256) &&& 0x70 := by
  have h := (c2_write_transactions ⟨1, 0x70, 4⟩ (fun _ => some 0xAB) 5).2
    (by decide) 0xAB rfl
  exact ⟨h.1, h.2.1 (by decide), h.2.2 (by decide)⟩

/-- C3 is false as the claim states it: the `Radio` wrapper's public
receive-completion interface, `recieve_is_complete`, does surface the
timeout to its caller, as `Err(Other(TimeoutError))`. -/
theorem c3_counterexample :
    ¬ (∀ (buf : List Nat) (e : TimeoutError),
        recieveIsComplete buf (.err (.timeoutError e)) ≠
          NbResult.other (.timeoutError e)) := by
  intro h
  exact h [] ⟨"", 0, ""⟩ rfl

/-- C3 (amended): on a receive timeout the `Radio` wrapper surfaces the
timeout from `recieve_is_complete` as `Err(Other(TimeoutError))`; the
auto-resume policy lives in the application loop `range_test_rx`, which
reacts to exactly that error by calling `recieve_start(None)` again, and
`recieve_start(None)` recomputes `rx_timeout_max()` and passes it to
`start_rx`. -/
theorem c3_timeout_policy (buf : List Nat) (e : TimeoutError)
    (sf : SpreadingFactor) (bw : Bandwidth) (io : Option IoError) :
    recieveIsComplete buf (.err (.timeoutError e)) = .other (.timeoutError e) ∧
    rangeTestRxReact (.other (.timeoutError e)) = .restartListen ∧
    recieveStart none sf bw io =
      (match startRx (rxTimeoutMax sf bw) sf bw io with
       | .ok _ => PanicOr.returned ()
       | .err err => PanicOr.panicked err) := by
  exact ⟨rfl, rfl, rfl⟩

/-- C5: `start_rx` fails with the `TimeoutTooLarge` invalid-argument error
exactly when the rounded symbol count exceeds 1023 or overflows the
intermediate signed 32-bit count, and succeeds (absent I/O failure) at a
count of exactly 1023 symbols. -/
theorem c5_start_rx_timeout_range (t : Nat) (sf : SpreadingFactor) (bw : Bandwidth)
    (io : Option IoError) :
    ((startRx t sf bw io =
        .err (.invalidArgumentError ⟨"driver", 0, "TimeoutTooLarge"⟩)) ↔
      (1023 < rxSymbolCount t sf bw ∨ 2 ^ 31 ≤ rxSymbolCount t sf bw)) ∧
    (rxSymbolCount t sf bw = 1023 → io = none → startRx t sf bw io = .ok ()) := by
  have hdef := startRx_def t sf bw io
  constructor
  · by_cases hg : 1023 < rxSymbolCount t sf bw ∨ 2 ^ 31 ≤ rxSymbolCount t sf bw
    · rw [hdef, if_pos hg]
      exact iff_of_true rfl hg
    · rw [hdef, if_neg hg]
      cases io with
      | none => exact iff_of_false (by simp) hg
      | some e => exact iff_of_false (by simp) hg
  · intro h1023 hio
    subst hio
    have hg : ¬ (1023 < rxSymbolCount t sf bw ∨ 2 ^ 31 ≤ rxSymbolCount t sf bw) := by
      rw [h1023]; norm_num
    rw [hdef, if_neg hg]

/-- Witness for C5 at SF7, 500 kHz and the 261888000 ns timeout, whose
symbol count is exactly 1023. -/
theorem c5_start_rx_timeout_range_witness :
    startRx 261888000 SpreadingFactor.s7 Bandwidth.b500 none = .ok () :=
  (c5_start_rx_timeout_range 261888000 .s7 .b500 none).2 (by decide) rfl

/-- C6 is false as the claim states it: `rx_timeout_max = 1023 * Tsym`
with `Tsym = 2^SF / BW` grows with the spreading factor and shrinks with
the bandwidth, so it is not decreasing in SF nor increasing in BW. -/
theorem c6_counterexample :
    ¬ (rxTimeoutMax SpreadingFactor.s8 Bandwidth.b500 ≤
        rxTimeoutMax SpreadingFactor.s7 Bandwidth.b500 ∧
       rxTimeoutMax SpreadingFactor.s7 Bandwidth.b250 ≤
        rxTimeoutMax SpreadingFactor.s7 Bandwidth.b500) := by
  decide

/-- C6 (amended): `rx_timeout_max()` is monotonically increasing in the
spreading factor (holding bandwidth fixed), monotonically decreasing in
the bandwidth (holding spreading factor fixed), and always equals a
duration representable as at most 1023 symbols. -/
theorem c6_rx_timeout_max_monotone :
    (∀ (bw : Bandwidth) (sf sfb : SpreadingFactor), sf.toU8 ≤ sfb.toU8 →
      rxTimeoutMax sf bw ≤ rxTimeoutMax sfb bw) ∧
    (∀ (sf : SpreadingFactor) (bw bwb : Bandwidth), bw.hz ≤ bwb.hz →
      rxTimeoutMax sf bwb ≤ rxTimeoutMax sf bw) ∧
    (∀ (sf : SpreadingFactor) (bw : Bandwidth),
      rxSymbolCount (rxTimeoutMax sf bw) sf bw ≤ 1023) := by
  decide

/-- Witness for C6 (amended) at SF7 against SF8 over 500 kHz. -/
theorem c6_rx_timeout_max_monotone_witness :
    rxTimeoutMax SpreadingFactor.s7 Bandwidth.b500 ≤
      rxTimeoutMax SpreadingFactor.s8 Bandwidth.b500 :=
  c6_rx_timeout_max_monotone.1 .b500 .s7 .s8 (by decide)

/-- C7: `start_tx(data)` with empty or over-capacity data fails with an
invalid-argument error and performs no bus transaction; for every other
data it succeeds absent I/O failure. -/
theorem c7_start_tx_buffer_validation (cap : Nat) (data : List Nat)
    (io : Option IoError) :
    ((data.length = 0 ∨ cap < data.length) →
      (startTx cap data io).1 =
        .err (.invalidArgumentError ⟨"driver", 0, "InvalidBufferSize"⟩) ∧
      (startTx cap data io).2 = 0) ∧
    (data.length ≠ 0 → data.length ≤ cap → io = none →
      (startTx cap data io).1 = .ok ()) := by
  have hdef : startTx cap data io =
      if data.length = 0 ∨ cap < data.length then
        (.err (.invalidArgumentError ⟨"driver", 0, "InvalidBufferSize"⟩), 0)
      else
        match io with
        | some e => (.err (.ioError e), 1)
        | none => (.ok (), 2 + data.length) := rfl
  constructor
  · intro h
    rw [hdef, if_pos h]
    exact ⟨rfl, rfl⟩
  · intro h1 h2 h3
    subst h3
    have hg : ¬ (data.length = 0 ∨ cap < data.length) := by
      rintro (hz | hlt)
      · exact h1 hz
      · exact absurd h2 (Nat.not_le.mpr hlt)
    rw [hdef, if_neg hg]

/-- Witness for C7 with a three-byte payload and capacity 255. -/
theorem c7_start_tx_buffer_validation_witness :
    (startTx 255 [1, 2, 3] none).1 = .ok () :=
  (c7_start_tx_buffer_validation 255 [1, 2, 3] none).2 (by decide) (by decide) rfl

/-- C9: `Radio::recieve_start` never returns an error (any `start_rx`
failure panics through `unwrap`), and with no explicit timeout the
duration passed is `rx_timeout_max()`, whose symbol count is exactly 1023,
so the `TimeoutTooLarge` branch of `start_rx` is unreachable and an I/O
failure is the only possible panic cause. -/
theorem c9_recieve_start_no_error (sf : SpreadingFactor) (bw : Bandwidth)
    (io : Option IoError) :
    rxSymbolCount (rxTimeoutMax sf bw) sf bw = 1023 ∧
    recieveStart none sf bw io =
      (match io with
       | none => PanicOr.returned ()
       | some e => PanicOr.panicked (RxStartError.ioError e)) := by
  have hcount : rxSymbolCount (rxTimeoutMax sf bw) sf bw = 1023 := by
    revert bw
    revert sf
    decide
  refine ⟨hcount, ?_⟩
  have hg : ¬ (1023 < rxSymbolCount (rxTimeoutMax sf bw) sf bw ∨
      2 ^ 31 ≤ rxSymbolCount (rxTimeoutMax sf bw) sf bw) := by
    rw [hcount]; norm_num
  have hsdef := startRx_def (rxTimeoutMax sf bw) sf bw io
  rw [if_neg hg] at hsdef
  show (match startRx (rxTimeoutMax sf bw) sf bw io with
    | .ok _ => PanicOr.returned ()
    | .err e => PanicOr.panicked e) = _
  rw [hsdef]
  cases io <;> rfl

end Rfm95
